import Mathlib

/-!
Verification of the bit-torrent client entry layer (`package torrent` and
`package main`) against its design specification.

The Go source is shallowly embedded: Go multi-value returns `(value, err)`
become Lean pairs `value × Option String` (an `error` is modelled by its
message string, `nil` by `none`); external collaborators that live in other
packages of the repository or in the Go standard library (`client.New`,
`peers.Unmarshal`, `bencode.Marshal`/`Unmarshal`, `crypto/sha1`,
`net/url.Parse`, `net/http.Get`, `peer2peer.Torrent.Download`) enter the
embedding as explicit function arguments, so every theorem below holds for
every implementation of those collaborators.  Bytes are `Nat`, Go byte
strings and `[20]byte` arrays are `List Nat`, Go `int` is `Int`.
-/

namespace BitTorrent

/-- A peer address, from package `peers` (fields used by `torrent.go`). -/
structure Peer where
  IP : String
  Port : Nat
  deriving DecidableEq, Repr

/-- `TorrentFile` encodes the metadata from a .torrent file
(`src/torrent/torrent.go`, lines 24-31). -/
structure TorrentFile where
  Announce : String
  InfoHash : List Nat
  PieceHashes : List (List Nat)
  PieceLength : Int
  Length : Int
  Name : String
  deriving DecidableEq, Repr

/-- The Go zero value `TorrentFile{}`. -/
def TorrentFile.zero : TorrentFile :=
  { Announce := "", InfoHash := List.replicate 20 0, PieceHashes := [],
    PieceLength := 0, Length := 0, Name := "" }

/-- `peer2peer.Torrent`, with the fields set by `GetTorrent`
(`src/torrent/torrent.go`, lines 60-68). -/
structure Torrent where
  Peers : List Peer
  PeerID : List Nat
  InfoHash : List Nat
  PieceHashes : List (List Nat)
  PieceLength : Int
  Length : Int
  Name : String
  deriving DecidableEq, Repr

/-- The Go zero value `peer2peer.Torrent{}`. -/
def Torrent.zero : Torrent :=
  { Peers := [], PeerID := List.replicate 20 0, InfoHash := List.replicate 20 0,
    PieceHashes := [], PieceLength := 0, Length := 0, Name := "" }

/-- `bencodeInfo` (`src/torrent/torrent.go`, lines 33-38); the Go string
`Pieces` is kept as its byte list. -/
structure BencodeInfo where
  Pieces : List Nat
  PieceLength : Int
  Length : Int
  Name : String
  deriving DecidableEq, Repr

/-- `bencodeTorrent` (`src/torrent/torrent.go`, lines 40-43). -/
structure BencodeTorrent where
  Announce : String
  Info : BencodeInfo
  deriving DecidableEq, Repr

/-- `bencodeTrackerResp` (tracker file, lines 14-17); the compact peer string
is kept as its byte list. -/
structure BencodeTrackerResp where
  Interval : Int
  Peers : List Nat
  deriving DecidableEq, Repr

/-- `splitPieceHashes` (`src/torrent/torrent.go`, lines 200-214): reject a
pieces string whose byte length is not a multiple of 20, otherwise copy the
20-byte slice `buf[i*hashLen:(i+1)*hashLen]` into `hashes[i]` for each `i`
below `numHashes`. -/
def splitPieceHashes (i : BencodeInfo) : List (List Nat) × Option String :=
  let hashLen := 20
  let buf := i.Pieces
  if buf.length % hashLen ≠ 0 then
    ([], some ("Received malformed pieces of length " ++ toString buf.length))
  else
    let numHashes := buf.length / hashLen
    ((List.range numHashes).map (fun k => (buf.drop (k * hashLen)).take hashLen),
     none)

/-- `hash` (`src/torrent/torrent.go`, lines 188-196): bencode-marshal the
info dictionary and SHA-1 the resulting bytes; on a marshal error return the
zero `[20]byte`.  `marshal` stands for `bencode.Marshal`, `sha1Sum` for
`sha1.Sum`, both external to this package. -/
def hash (marshal : BencodeInfo → List Nat × Option String)
    (sha1Sum : List Nat → List Nat) (i : BencodeInfo) :
    List Nat × Option String :=
  match marshal i with
  | (_, some e) => (List.replicate 20 0, some e)
  | (buf, none) => (sha1Sum buf, none)

/-- `toTorrentFile` (`src/torrent/torrent.go`, lines 218-236). -/
def toTorrentFile (marshal : BencodeInfo → List Nat × Option String)
    (sha1Sum : List Nat → List Nat) (bto : BencodeTorrent) :
    TorrentFile × Option String :=
  match hash marshal sha1Sum bto.Info with
  | (_, some e) => (TorrentFile.zero, some e)
  | (infoHash, none) =>
    match splitPieceHashes bto.Info with
    | (_, some e) => (TorrentFile.zero, some e)
    | (pieceHashes, none) =>
      ({ Announce := bto.Announce, InfoHash := infoHash,
         PieceHashes := pieceHashes, PieceLength := bto.Info.PieceLength,
         Length := bto.Info.Length, Name := bto.Info.Name }, none)

/-- `Open` (`src/torrent/torrent.go`, lines 172-185).  `osOpen` stands for
`os.Open path` (its file handle has type `F`), `unmarshal` for
`bencode.Unmarshal` reading from that handle. -/
def Open {F : Type} (osOpen : F × Option String)
    (unmarshal : F → BencodeTorrent × Option String)
    (marshal : BencodeInfo → List Nat × Option String)
    (sha1Sum : List Nat → List Nat) : TorrentFile × Option String :=
  match osOpen with
  | (_, some e) => (TorrentFile.zero, some e)
  | (file, none) =>
    match unmarshal file with
    | (_, some e) => (TorrentFile.zero, some e)
    | (bto, none) => toTorrentFile marshal sha1Sum bto

/-- A query parameter value: a raw byte string (Go `string(bytes)`) or a
text string. -/
inductive QVal where
  | bytes (bs : List Nat)
  | str (s : String)
  deriving DecidableEq, Repr

/-- `buildTrackerURL` (tracker file, lines 20-38): parse the announce URL
and attach the `url.Values` literal as its query.  `parseURL` stands for
`url.Parse`, producing a base of abstract type `B`; the result represents
the final URL as the parsed base plus its query parameters (Go renders this
pair to a string with `Encode`/`String`; a parse error yields `("" , err)`,
modelled by `none`). -/
def buildTrackerURL {B : Type} (parseURL : String → Except String B)
    (t : TorrentFile) (peerID : List Nat) (port : Nat) :
    Option (B × List (String × QVal)) × Option String :=
  match parseURL t.Announce with
  | .error e => (none, some e)
  | .ok base =>
    (some (base,
      [("info_hash", QVal.bytes t.InfoHash),
       ("peer_id", QVal.bytes peerID),
       ("port", QVal.str (Nat.repr port)),
       ("uploaded", QVal.str "0"),
       ("downloaded", QVal.str "0"),
       ("compact", QVal.str "1"),
       ("left", QVal.str "0")]), none)

/-- `requestPeers` (tracker file, lines 41-61).  `get` stands for
`http.Client.Get` on the built URL (returning a response body of abstract
type `R`), `unmarshalTracker` for `bencode.Unmarshal` of the body, and
`peersUnmarshal` for `peers.Unmarshal` of the compact peer string.  The
second component of the result is the list of HTTP GET requests issued,
each recorded as the URL it was sent to. -/
def requestPeers {B R : Type} (parseURL : String → Except String B)
    (get : B × List (String × QVal) → R × Option String)
    (unmarshalTracker : R → BencodeTrackerResp × Option String)
    (peersUnmarshal : List Nat → List Peer × Option String)
    (t : TorrentFile) (peerID : List Nat) (port : Nat) :
    (List Peer × Option String) × List (B × List (String × QVal)) :=
  match buildTrackerURL parseURL t peerID port with
  | (_, some e) => (([], some e), [])
  | (none, none) => (([], none), [])
  | (some url, none) =>
    match get url with
    | (_, some e) => (([], some e), [url])
    | (body, none) =>
      match unmarshalTracker body with
      | (_, some e) => (([], some e), [url])
      | (trackerResp, none) => (peersUnmarshal trackerResp.Peers, [url])

/-- `GetTorrent` (`src/torrent/torrent.go`, lines 47-71).  `randRead` stands
for `rand.Read` filling the 20-byte peer id, `reqPeers` for the
`requestPeers` call on the receiver.  The receiver is passed by pointer and
never assigned to, so the embedding threads it through unchanged: the second
component is the receiver's state when the method returns. -/
def getTorrent (randRead : List Nat × Option String)
    (reqPeers : List Nat → List Peer × Option String)
    (t : TorrentFile) : (Torrent × Option String) × TorrentFile :=
  match randRead with
  | (_, some e) => ((Torrent.zero, some e), t)
  | (peerID, none) =>
    match reqPeers peerID with
    | (_, some e) => ((Torrent.zero, some e), t)
    | (peers, none) =>
      (({ Peers := peers, PeerID := peerID, InfoHash := t.InfoHash,
          PieceHashes := t.PieceHashes, PieceLength := t.PieceLength,
          Length := t.Length, Name := t.Name }, none), t)

/-- One step of the collection loop of `ConnectToPeers`: a successful
`client.New` appends the client under the mutex, a handshake error logs and
returns without appending. -/
def connectStep {C : Type} (new : Peer → List Nat → List Nat → Option C)
    (peerID infoHash : List Nat) (acc : List C) (p : Peer) : List C :=
  match new p peerID infoHash with
  | none => acc
  | some c => acc ++ [c]

/-- `ConnectToPeers` (`src/torrent/torrent.go`, lines 106-146): spawn one
goroutine per peer in `torrent.Peers`, each calling
`client.New(p, torrent.PeerID, torrent.InfoHash)` and appending the client
on success; after all goroutines finish, fail iff no client was collected.
`new` stands for `client.New`, with `none` for a handshake error.  The
second component records the peers for which a `client.New` attempt was
made (one goroutine per listed peer). -/
def connectToPeers {C : Type} (new : Peer → List Nat → List Nat → Option C)
    (torrent : Torrent) : (List C × Option String) × List Peer :=
  let clients := torrent.Peers.foldl
    (connectStep new torrent.PeerID torrent.InfoHash) []
  if clients.isEmpty then
    (([], some "failed to connect to any peers"), torrent.Peers)
  else
    ((clients, none), torrent.Peers)

/-- The startup prefix of `main` (entry point, lines 28-39): build the
torrent via `GetTorrent`, aborting fatally on error before any connection
attempt; otherwise hand the torrent to `ConnectToPeers`.  The second
component again records every peer for which a connection was attempted. -/
def startup {C : Type} (randRead : List Nat × Option String)
    (reqPeers : List Nat → List Peer × Option String)
    (new : Peer → List Nat → List Nat → Option C)
    (tf : TorrentFile) : (List C × Option String) × List Peer :=
  match (getTorrent randRead reqPeers tf).1 with
  | (_, some e) => (([], some e), [])
  | (tor, none) => connectToPeers new tor

/-- The file system seen by `DownloadToFile`: contents by path. -/
def FS : Type := String → Option (List Nat)

/-- `DownloadToFile` (`src/torrent/torrent.go`, lines 149-169).  `download`
stands for `torrent.Download(clients)`; `createErr` and `writeErr` inject
the possible failures of `os.Create` and `File.Write` (`none` = success).
Per `os.Create` semantics the create truncates the file at `path` (creating
it if absent) and the write then stores the buffer. -/
def downloadToFile (download : List Nat × Option String)
    (createErr writeErr : Option String) (path : String) (fs : FS) :
    Option String × FS :=
  match download with
  | (_, some e) => (some e, fs)
  | (buf, none) =>
    match createErr with
    | some e => (some e, fs)
    | none =>
      let fs1 : FS := fun p => if p = path then some [] else fs p
      match writeErr with
      | some e => (some e, fs1)
      | none => (none, fun p => if p = path then some buf else fs1 p)

/-- `List.foldl` over `connectStep` collects exactly the successful
handshakes, in peer order, appended after the accumulator. -/
theorem connect_foldl {C : Type} (new : Peer → List Nat → List Nat → Option C)
    (peerID infoHash : List Nat) (ps : List Peer) (acc : List C) :
    ps.foldl (connectStep new peerID infoHash) acc =
      acc ++ ps.filterMap (fun p => new p peerID infoHash) := by
  induction ps generalizing acc with
  | nil => simp
  | cons p ps ih =>
    rw [List.foldl_cons, ih]
    unfold connectStep
    cases h : new p peerID infoHash <;> simp [h]

/-- C3: if the `Download` call fails with error `e`, `DownloadToFile`
returns exactly `e` and the file system is unchanged — no file is created
and nothing is written at `path` (regardless of the buffer returned
alongside the error and of how `os.Create`/`Write` would have behaved). -/
theorem C3_downloadToFile_error (buf : List Nat) (e : String)
    (createErr writeErr : Option String) (path : String) (fs : FS) :
    downloadToFile (buf, some e) createErr writeErr path fs = (some e, fs) :=
  rfl

/-- C4: if the `Download` call succeeds with buffer `buf` and neither
`os.Create` nor the write errors, `DownloadToFile` returns `nil` and the
file at `path` holds exactly `buf`; hence the output file size equals
`t.Length` whenever `buf` has length `t.Length`.  If create or write
errors, that error is returned instead. -/
theorem C4_downloadToFile_success (t : TorrentFile) (buf : List Nat)
    (path : String) (fs : FS) (writeErr : Option String) :
    (downloadToFile (buf, none) none none path fs).1 = none ∧
    (downloadToFile (buf, none) none none path fs).2 path = some buf ∧
    ((buf.length : Int) = t.Length →
      ∃ c, (downloadToFile (buf, none) none none path fs).2 path = some c ∧
        (c.length : Int) = t.Length) ∧
    (∀ e, (downloadToFile (buf, none) (some e) writeErr path fs).1 = some e) ∧
    (∀ e, (downloadToFile (buf, none) none (some e) path fs).1 = some e) := by
  refine ⟨rfl, by simp [downloadToFile], fun h => ⟨buf, by simp [downloadToFile], h⟩,
    fun e => rfl, fun e => rfl⟩

/-- Witness for C4 at a concrete input: a 3-byte buffer written to `"out"`
for a torrent of `Length` 3 on an empty file system. -/
theorem C4_witness :
    ((([1, 2, 3] : List Nat).length : Int) =
        ({ TorrentFile.zero with Length := 3 } : TorrentFile).Length) ∧
    ∃ c, (downloadToFile ([1, 2, 3], none) none none "out"
        (fun _ => none)).2 "out" = some c ∧ (c.length : Int) =
        ({ TorrentFile.zero with Length := 3 } : TorrentFile).Length := by
  have h := C4_downloadToFile_success { TorrentFile.zero with Length := 3 }
    [1, 2, 3] "out" (fun _ => none) none
  exact ⟨by decide, h.2.2.1 (by decide)⟩

/-- C10: a pre-existing file at `path` does not make `DownloadToFile` fail:
`os.Create` truncates it and the downloaded buffer overwrites the old
contents. -/
theorem C10_overwrite_existing (buf existing : List Nat) (path : String)
    (fs : FS) (_h : fs path = some existing) :
    (downloadToFile (buf, none) none none path fs).1 = none ∧
    (downloadToFile (buf, none) none none path fs).2 path = some buf := by
  exact ⟨rfl, by simp [downloadToFile]⟩

/-- Witness for C10 at a concrete input: `"out"` already holds `[9]` and is
overwritten with `[1, 2]`. -/
theorem C10_witness :
    ((fun p => if p = "out" then some [9] else none : FS) "out" = some [9]) ∧
    (downloadToFile ([1, 2], none) none none "out"
      (fun p => if p = "out" then some [9] else none)).1 = none ∧
    (downloadToFile ([1, 2], none) none none "out"
      (fun p => if p = "out" then some [9] else none)).2 "out" =
        some [1, 2] := by
  have h := C10_overwrite_existing [1, 2] [9] "out"
    (fun p => if p = "out" then some [9] else none) (by simp)
  exact ⟨by simp, h.1, h.2⟩

/-- C5: `splitPieceHashes` errors exactly when the pieces string's byte
length is not a multiple of 20; otherwise it returns `length / 20` hashes
where the `k`-th is the 20-byte slice `[20*k, 20*k + 20)` of the pieces
string. -/
theorem C5_splitPieceHashes (i : BencodeInfo) :
    ((splitPieceHashes i).2.isSome ↔ i.Pieces.length % 20 ≠ 0) ∧
    (i.Pieces.length % 20 = 0 →
      (splitPieceHashes i).1.length = i.Pieces.length / 20 ∧
      ∀ k, k < i.Pieces.length / 20 →
        (splitPieceHashes i).1[k]? =
          some ((i.Pieces.drop (20 * k)).take 20) ∧
        ((i.Pieces.drop (20 * k)).take 20).length = 20) := by
  constructor
  · unfold splitPieceHashes
    by_cases h : i.Pieces.length % 20 = 0 <;> simp [h]
  · intro h
    unfold splitPieceHashes
    rw [if_neg (by simp [h])]
    refine ⟨by simp, fun k hk => ?_⟩
    have hlen : 20 * (k + 1) ≤ i.Pieces.length := by
      have h1 : k + 1 ≤ i.Pieces.length / 20 := hk
      have h2 := Nat.mul_le_mul_left 20 h1
      have h3 : 20 * (i.Pieces.length / 20) = i.Pieces.length :=
        Nat.mul_div_cancel' (Nat.dvd_of_mod_eq_zero h)
      omega
    constructor
    · rw [List.getElem?_map, List.getElem?_range hk]
      simp [Nat.mul_comm]
    · have hd : (i.Pieces.drop (20 * k)).length = i.Pieces.length - 20 * k :=
        List.length_drop _ _
      rw [List.length_take, hd]
      omega

/-- Witness for C5 at a concrete input: a 40-byte pieces string splits into
two hashes, and the hash at index 1 is bytes `[20, 40)`. -/
theorem C5_witness :
    ({ Pieces := List.replicate 40 3, PieceLength := 0, Length := 0,
       Name := "" } : BencodeInfo).Pieces.length % 20 = 0 ∧
    1 < ({ Pieces := List.replicate 40 3, PieceLength := 0, Length := 0,
           Name := "" } : BencodeInfo).Pieces.length / 20 ∧
    (splitPieceHashes
        { Pieces := List.replicate 40 3, PieceLength := 0, Length := 0,
          Name := "" }).1[1]? =
      some (((List.replicate 40 3 : List Nat).drop (20 * 1)).take 20) ∧
    (((List.replicate 40 3 : List Nat).drop (20 * 1)).take 20).length = 20 := by
  have h := C5_splitPieceHashes
    { Pieces := List.replicate 40 3, PieceLength := 0, Length := 0,
      Name := "" }
  have h2 := (h.2 (by decide)).2 1 (by decide)
  exact ⟨by decide, by decide, h2.1, h2.2⟩

/-- C1: `ConnectToPeers` fails exactly when no peer completes the
handshake; otherwise it returns the list holding one client per peer of
`torrent.Peers` for which `client.New` succeeded (peers whose handshake
fails contribute nothing — they are skipped). -/
theorem C1_connectToPeers {C : Type} (new : Peer → List Nat → List Nat → Option C)
    (torrent : Torrent) :
    ((connectToPeers new torrent).1.2.isSome ↔
      torrent.Peers.filterMap
        (fun p => new p torrent.PeerID torrent.InfoHash) = []) ∧
    (torrent.Peers.filterMap
        (fun p => new p torrent.PeerID torrent.InfoHash) ≠ [] →
      (connectToPeers new torrent).1 =
        (torrent.Peers.filterMap
          (fun p => new p torrent.PeerID torrent.InfoHash), none)) := by
  unfold connectToPeers
  rw [connect_foldl]
  simp only [List.nil_append]
  by_cases h : torrent.Peers.filterMap
      (fun p => new p torrent.PeerID torrent.InfoHash) = [] <;>
    simp [h, List.isEmpty_iff]

/-- Witness for C1 at a concrete input: two peers of which only the first
handshakes; one client is returned and no error. -/
theorem C1_witness :
    (([⟨"a", 1⟩, ⟨"b", 2⟩] : List Peer).filterMap
        (fun p => if p.IP = "a" then some () else none) ≠ []) ∧
    (connectToPeers (fun p _ _ => if p.IP = "a" then some () else none)
      { Torrent.zero with Peers := [⟨"a", 1⟩, ⟨"b", 2⟩] }).1 = ([()], none) := by
  have h := C1_connectToPeers
    (fun p _ _ => if p.IP = "a" then some () else none)
    { Torrent.zero with Peers := [⟨"a", 1⟩, ⟨"b", 2⟩] }
  refine ⟨by decide, ?_⟩
  rw [h.2 (by decide)]
  decide

/-- C7: `GetTorrent` leaves its receiver unmodified, and on success the
returned torrent carries exactly the receiver's `InfoHash`, `PieceHashes`,
`PieceLength`, `Length` and `Name`. -/
theorem C7_getTorrent (randRead : List Nat × Option String)
    (reqPeers : List Nat → List Peer × Option String) (t : TorrentFile) :
    (getTorrent randRead reqPeers t).2 = t ∧
    ∀ tor, (getTorrent randRead reqPeers t).1 = (tor, none) →
      tor.InfoHash = t.InfoHash ∧ tor.PieceHashes = t.PieceHashes ∧
      tor.PieceLength = t.PieceLength ∧ tor.Length = t.Length ∧
      tor.Name = t.Name := by
  rcases randRead with ⟨pid, e⟩
  cases e with
  | some e => exact ⟨rfl, fun tor h => by simp [getTorrent] at h⟩
  | none =>
    rcases hr : reqPeers pid with ⟨ps, e2⟩
    cases e2 with
    | some e2 =>
      refine ⟨by simp [getTorrent, hr], fun tor h => ?_⟩
      simp [getTorrent, hr] at h
    | none =>
      refine ⟨by simp [getTorrent, hr], fun tor h => ?_⟩
      simp [getTorrent, hr] at h
      subst h
      exact ⟨rfl, rfl, rfl, rfl, rfl⟩

/-- Witness for C7 at a concrete input: a successful peer-id draw and
tracker request over a torrent file with a distinctive `Name`. -/
theorem C7_witness :
    (getTorrent (List.replicate 20 1, none) (fun _ => ([⟨"a", 1⟩], none))
        { TorrentFile.zero with Name := "n" }).1 =
      ({ Peers := [⟨"a", 1⟩], PeerID := List.replicate 20 1,
         InfoHash := List.replicate 20 0, PieceHashes := [],
         PieceLength := 0, Length := 0, Name := "n" }, none) ∧
    ({ Peers := [⟨"a", 1⟩], PeerID := List.replicate 20 1,
       InfoHash := List.replicate 20 0, PieceHashes := [],
       PieceLength := 0, Length := 0, Name := "n" } : Torrent).Name =
      ({ TorrentFile.zero with Name := "n" } : TorrentFile).Name := by
  refine ⟨by decide, ?_⟩
  exact ((C7_getTorrent (List.replicate 20 1, none)
    (fun _ => ([⟨"a", 1⟩], none)) { TorrentFile.zero with Name := "n" }).2
    _ (by decide)).2.2.2.2

/-- `toTorrentFile` on any error path returns the zero `TorrentFile`
alongside the error. -/
theorem toTorrentFile_error_zero
    (marshal : BencodeInfo → List Nat × Option String)
    (sha1Sum : List Nat → List Nat) (bto : BencodeTorrent) (e : String)
    (h : (toTorrentFile marshal sha1Sum bto).2 = some e) :
    toTorrentFile marshal sha1Sum bto = (TorrentFile.zero, some e) := by
  unfold toTorrentFile at h ⊢
  rcases hh : hash marshal sha1Sum bto.Info with ⟨ih, em⟩
  cases em with
  | some em => simp_all
  | none =>
    rcases hs : splitPieceHashes bto.Info with ⟨phs, es⟩
    cases es with
    | some es => simp_all
    | none => simp_all

/-- C8: startup errors are fatal and atomic.  If peer-id generation or the
tracker request fails, `GetTorrent` returns the zero `Torrent` with that
error and `main` attempts no peer connection; if the file open, the bencode
unmarshal, or the conversion fails, `Open` returns the zero `TorrentFile`
with that error. -/
theorem C8_startup_fatal {C F : Type} (e : String) (t : TorrentFile)
    (reqPeers : List Nat → List Peer × Option String)
    (new : Peer → List Nat → List Nat → Option C)
    (pid buf : List Nat) (ps : List Peer) (f : F)
    (unmarshal : F → BencodeTorrent × Option String)
    (marshal : BencodeInfo → List Nat × Option String)
    (sha1Sum : List Nat → List Nat) (bto : BencodeTorrent) :
    (getTorrent (buf, some e) reqPeers t).1 = (Torrent.zero, some e) ∧
    (startup (buf, some e) reqPeers new t).2 = [] ∧
    (getTorrent (pid, none) (fun _ => (ps, some e)) t).1 =
      (Torrent.zero, some e) ∧
    (startup (pid, none) (fun _ => (ps, some e)) new t).2 = [] ∧
    Open (f, some e) unmarshal marshal sha1Sum = (TorrentFile.zero, some e) ∧
    Open (f, none) (fun _ => (bto, some e)) marshal sha1Sum =
      (TorrentFile.zero, some e) ∧
    ((toTorrentFile marshal sha1Sum bto).2 = some e →
      Open (f, none) (fun _ => (bto, none)) marshal sha1Sum =
        (TorrentFile.zero, some e)) := by
  refine ⟨rfl, rfl, rfl, rfl, rfl, rfl, fun h => ?_⟩
  show toTorrentFile marshal sha1Sum bto = (TorrentFile.zero, some e)
  exact toTorrentFile_error_zero marshal sha1Sum bto e h

/-- Witness for C8 at a concrete input: a failing bencode marshal makes the
conversion error, and `Open` returns the zero `TorrentFile` with it. -/
theorem C8_witness :
    ((toTorrentFile (fun _ => ([], some "boom")) (fun bs => bs)
        { Announce := "",
          Info := { Pieces := [], PieceLength := 0, Length := 0,
                    Name := "" } }).2 = some "boom") ∧
    Open ((), none) (fun _ =>
        ({ Announce := "",
           Info := { Pieces := [], PieceLength := 0, Length := 0,
                     Name := "" } }, none))
      (fun _ => ([], some "boom")) (fun bs => bs) =
      (TorrentFile.zero, some "boom") := by
  refine ⟨by decide, ?_⟩
  exact (C8_startup_fatal (C := Unit) "boom" TorrentFile.zero
    (fun _ => ([], none)) (fun _ _ _ => none) [] [] [] ()
    (fun _ => ({ Announce := "",
                 Info := { Pieces := [], PieceLength := 0, Length := 0,
                           Name := "" } }, none))
    (fun _ => ([], some "boom")) (fun bs => bs)
    { Announce := "",
      Info := { Pieces := [], PieceLength := 0, Length := 0,
                Name := "" } }).2.2.2.2.2.2 (by decide)

/-- C9: when the info dictionary marshals successfully to `buf`, the
`InfoHash` of the `TorrentFile` produced by `toTorrentFile` is the SHA-1
digest of `buf` — the content identifier hashes the bencode serialization
of the info dictionary, not the raw file bytes. -/
theorem C9_infoHash_sha1 (marshal : BencodeInfo → List Nat × Option String)
    (sha1Sum : List Nat → List Nat) (bto : BencodeTorrent) (buf : List Nat)
    (hm : marshal bto.Info = (buf, none)) (tf : TorrentFile)
    (ht : toTorrentFile marshal sha1Sum bto = (tf, none)) :
    tf.InfoHash = sha1Sum buf := by
  unfold toTorrentFile hash at ht
  rw [hm] at ht
  rcases hs : splitPieceHashes bto.Info with ⟨phs, es⟩
  rw [hs] at ht
  cases es with
  | some es => simp at ht
  | none =>
    simp only [Prod.mk.injEq] at ht
    rw [← ht.1]

/-- Witness for C9 at a concrete input: the info dictionary marshals to
`[7]` and the produced `InfoHash` is the digest of `[7]`. -/
theorem C9_witness :
    ((fun _ : BencodeInfo => (([7] : List Nat), (none : Option String)))
        ({ Announce := "",
           Info := { Pieces := [], PieceLength := 0, Length := 0,
                     Name := "" } } : BencodeTorrent).Info = ([7], none)) ∧
    (toTorrentFile (fun _ => ([7], none)) (fun bs => 0 :: bs)
        { Announce := "",
          Info := { Pieces := [], PieceLength := 0, Length := 0,
                    Name := "" } } =
      ({ Announce := "", InfoHash := [0, 7], PieceHashes := [],
         PieceLength := 0, Length := 0, Name := "" }, none)) ∧
    ({ Announce := "", InfoHash := [0, 7], PieceHashes := [],
       PieceLength := 0, Length := 0, Name := "" } : TorrentFile).InfoHash =
      (fun bs => 0 :: bs) [7] := by
  refine ⟨rfl, by decide, ?_⟩
  exact C9_infoHash_sha1 (fun _ => ([7], none)) (fun bs => 0 :: bs)
    { Announce := "",
      Info := { Pieces := [], PieceLength := 0, Length := 0, Name := "" } }
    [7] rfl _ (by decide)

/-- When the announce URL parses, `buildTrackerURL` returns exactly the
seven query parameters of the `url.Values` literal. -/
theorem buildTrackerURL_params {B : Type} (parseURL : String → Except String B)
    (t : TorrentFile) (peerID : List Nat) (port : Nat) (base : B)
    (hp : parseURL t.Announce = .ok base) :
    buildTrackerURL parseURL t peerID port =
      (some (base,
        [("info_hash", QVal.bytes t.InfoHash),
         ("peer_id", QVal.bytes peerID),
         ("port", QVal.str (Nat.repr port)),
         ("uploaded", QVal.str "0"),
         ("downloaded", QVal.str "0"),
         ("compact", QVal.str "1"),
         ("left", QVal.str "0")]), none) := by
  simp [buildTrackerURL, hp]

/-- Whenever the URL builds, `requestPeers` issues exactly one HTTP GET, to
that URL, whatever the tracker response or later decoding does. -/
theorem requestPeers_single_get {B R : Type}
    (parseURL : String → Except String B)
    (get : B × List (String × QVal) → R × Option String)
    (unmarshalTracker : R → BencodeTrackerResp × Option String)
    (peersUnmarshal : List Nat → List Peer × Option String)
    (t : TorrentFile) (peerID : List Nat) (port : Nat)
    (url : B × List (String × QVal))
    (hurl : buildTrackerURL parseURL t peerID port = (some url, none)) :
    (requestPeers parseURL get unmarshalTracker peersUnmarshal
      t peerID port).2 = [url] := by
  unfold requestPeers
  rw [hurl]
  rcases hg : get url with ⟨body, eb⟩
  cases eb with
  | some eb => simp [hg]
  | none =>
    rcases hu : unmarshalTracker body with ⟨tr, eu⟩
    cases eu <;> simp [hg, hu]

/-- C2: whenever the announce URL parses as `base`, `requestPeers` issues a
single HTTP GET whose URL is `base` carrying exactly the query parameters
`info_hash` (the 20-byte info hash), `peer_id` (the 20-byte peer id),
`port` (decimal), `uploaded = "0"`, `downloaded = "0"`, `compact = "1"`,
`left = "0"`. -/
theorem C2_requestPeers_get {B R : Type} (parseURL : String → Except String B)
    (get : B × List (String × QVal) → R × Option String)
    (unmarshalTracker : R → BencodeTrackerResp × Option String)
    (peersUnmarshal : List Nat → List Peer × Option String)
    (t : TorrentFile) (peerID : List Nat) (port : Nat) (base : B)
    (hp : parseURL t.Announce = .ok base) :
    (requestPeers parseURL get unmarshalTracker peersUnmarshal
      t peerID port).2 =
      [(base,
        [("info_hash", QVal.bytes t.InfoHash),
         ("peer_id", QVal.bytes peerID),
         ("port", QVal.str (Nat.repr port)),
         ("uploaded", QVal.str "0"),
         ("downloaded", QVal.str "0"),
         ("compact", QVal.str "1"),
         ("left", QVal.str "0")])] :=
  requestPeers_single_get parseURL get unmarshalTracker peersUnmarshal
    t peerID port _ (buildTrackerURL_params parseURL t peerID port base hp)

/-- Witness for C2 at a concrete input: an identity URL parser on the zero
torrent file at port 6881 yields exactly one GET with the seven
parameters. -/
theorem C2_witness :
    ((fun s => Except.ok s : String → Except String String)
        (TorrentFile.zero.Announce) = .ok "") ∧
    (requestPeers (fun s => Except.ok s)
      (fun _ => ((), (none : Option String)))
      (fun _ => ({ Interval := 0, Peers := [] }, none))
      (fun _ => ([], none)) TorrentFile.zero [] 6881).2 =
      [("",
        [("info_hash", QVal.bytes (List.replicate 20 0)),
         ("peer_id", QVal.bytes []),
         ("port", QVal.str "6881"),
         ("uploaded", QVal.str "0"),
         ("downloaded", QVal.str "0"),
         ("compact", QVal.str "1"),
         ("left", QVal.str "0")])] := by
  refine ⟨rfl, ?_⟩
  have h := C2_requestPeers_get (fun s => Except.ok s)
    (fun _ => ((), (none : Option String)))
    (fun _ => ({ Interval := 0, Peers := [] }, none))
    (fun _ => ([], none)) TorrentFile.zero [] 6881 "" rfl
  simpa using h

end BitTorrent
